import Mathlib

/-!
Verification of the walk-tracking core of the dog-walk-tracker app.

The embedding covers:
* the Haversine distance math (`calculateDistance`, `calculateRouteDistance`
  from the walk context);
* the walk-session state machine (`startWalk`, `stopWalk`, the location
  subscription callback, the unmount cleanup);
* the persistence layer (`DatabaseService`: `init`, `saveWalk`,
  `saveRoutePoint`, `saveRoutePoints`, `getRoutePoints`, `getAllWalks`,
  `getRecentWalks`, `getWalkById`, `getWalkStats`, `deleteWalk`) over an
  explicit model of the SQLite tables, with insert failures and the
  `BEGIN`/`COMMIT`/`ROLLBACK` transaction modelled by a pending row list
  that is appended on commit and discarded on rollback.

Numbers are modelled as real numbers (the source uses IEEE doubles);
timestamps as integer milliseconds (the source stores ISO-8601 strings whose
lexicographic order coincides with chronological order).
-/

namespace DogWalk



/-- `LocationCoords`: a latitude/longitude pair, as in the walk context. -/
structure Coord where
  latitude : ℝ
  longitude : ℝ

instance : Inhabited Coord := ⟨⟨0, 0⟩⟩

/-- JavaScript `Math.atan2 y x`: the argument of the complex number `x + y·i`
(range `(-π, π]`, `atan2 0 0 = 0`). -/
noncomputable def atan2 (y x : ℝ) : ℝ :=
  Complex.arg ⟨x, y⟩

/-- `calculateDistance` from the walk context: the Haversine great-circle
distance in meters between two coordinates, with Earth radius `6371e3`. -/
noncomputable def calculateDistance (start stop : Coord) : ℝ :=
  let R : ℝ := 6371e3
  let φ1 := start.latitude * Real.pi / 180
  let φ2 := stop.latitude * Real.pi / 180
  let dPhi := (stop.latitude - start.latitude) * Real.pi / 180
  let dLam := (stop.longitude - start.longitude) * Real.pi / 180
  let a := Real.sin (dPhi / 2) * Real.sin (dPhi / 2) +
      Real.cos φ1 * Real.cos φ2 * Real.sin (dLam / 2) * Real.sin (dLam / 2)
  let c := 2 * atan2 (Real.sqrt a) (Real.sqrt (1 - a))
  R * c

/-- `calculateRouteDistance` from the walk context: `0` for fewer than two
points, otherwise the loop `for i in [1, n): total += dist(p[i-1], p[i])`,
rendered as a fold over the list of consecutive pairs. -/
noncomputable def calculateRouteDistance (points : List Coord) : ℝ :=
  if points.length < 2 then 0
  else (points.zip points.tail).foldl
    (fun total pq => total + calculateDistance pq.1 pq.2) 0

/-- The Haversine `a` term of `calculateDistance`, named for use in proofs. -/
noncomputable def havA (start stop : Coord) : ℝ :=
  Real.sin ((stop.latitude - start.latitude) * Real.pi / 180 / 2) *
      Real.sin ((stop.latitude - start.latitude) * Real.pi / 180 / 2) +
    Real.cos (start.latitude * Real.pi / 180) *
      Real.cos (stop.latitude * Real.pi / 180) *
      Real.sin ((stop.longitude - start.longitude) * Real.pi / 180 / 2) *
      Real.sin ((stop.longitude - start.longitude) * Real.pi / 180 / 2)

/-- Sum of a pairwise distance function over the consecutive pairs of a list. -/
noncomputable def pairSum (d : Coord → Coord → ℝ) : List Coord → ℝ
  | p :: q :: rest => d p q + pairSum d (q :: rest)
  | _ => 0

/-- The spec's Haversine segment distance, written from the spec's words:
`a = sin²(Δφ/2) + cos(φ1)·cos(φ2)·sin²(Δλ/2)`, `c = 2·atan2(√a, √(1−a))`,
`segment = R·c` with `R = 6,371,000` meters, `φ`/`λ` the latitude/longitude in
radians. -/
noncomputable def specSegment (p q : Coord) : ℝ :=
  let R : ℝ := 6371000
  let φ1 := p.latitude * Real.pi / 180
  let φ2 := q.latitude * Real.pi / 180
  let dPhi := φ2 - φ1
  let dLam := q.longitude * Real.pi / 180 - p.longitude * Real.pi / 180
  let a := Real.sin (dPhi / 2) ^ 2 + Real.cos φ1 * Real.cos φ2 * Real.sin (dLam / 2) ^ 2
  let c := 2 * atan2 (Real.sqrt a) (Real.sqrt (1 - a))
  R * c

/-- The spec's `routeLength`: the sum over all consecutive pairs of the
Haversine segment distance. -/
noncomputable def specRouteLength (ps : List Coord) : ℝ :=
  ∑ i ∈ Finset.range (ps.length - 1), specSegment (ps.getD i default) (ps.getD (i + 1) default)

/-- The extra segment contributed when a point is appended at the end. -/
noncomputable def lastSeg (d : Coord → Coord → ℝ) (l : List Coord) (x : Coord) : ℝ :=
  match l.getLast? with
  | some y => d y x
  | none => 0

/-! ## Persistence layer (`DatabaseService` over the SQLite tables)

The two tables are modelled as lists of rows; `dbOpen` models `this.db`
being non-null (it stays `false` when `init` never ran or failed).  Insert
failures of the underlying engine are modelled by boolean oracles; the
`BEGIN`/`COMMIT`/`ROLLBACK` transaction of `saveRoutePoints` is modelled by
accumulating the inserted rows in a pending list that is appended to the
table on commit and discarded on rollback. -/

/-- A stored `walks` row.  Optional (`NULL`-able) columns are `Option`. -/
structure WalkRow where
  id : ℕ
  startTime : ℤ
  endTime : ℤ
  duration : ℤ
  startLatitude : ℝ
  startLongitude : ℝ
  endLatitude : Option ℝ
  endLongitude : Option ℝ
  distance : Option ℝ
  createdAt : ℤ

/-- `Omit<Walk, 'id'>`: the record handed to `saveWalk`. -/
structure WalkRec where
  startTime : ℤ
  endTime : ℤ
  duration : ℤ
  startLatitude : ℝ
  startLongitude : ℝ
  endLatitude : Option ℝ
  endLongitude : Option ℝ
  distance : Option ℝ
  createdAt : ℤ

/-- A stored `route_points` row. -/
structure RoutePointRow where
  id : ℕ
  walkId : ℕ
  latitude : ℝ
  longitude : ℝ
  timestamp : ℤ
  accuracy : Option ℝ

/-- `Omit<RoutePoint, 'id'>`: the record handed to `saveRoutePoints`. -/
structure RoutePointRec where
  walkId : ℕ
  latitude : ℝ
  longitude : ℝ
  timestamp : ℤ
  accuracy : Option ℝ

/-- The state of the `DatabaseService` singleton together with its SQLite
file: `dbOpen` is `this.db !== null`; the two row lists are the tables in
insertion order; the counters model `AUTOINCREMENT` / `lastInsertRowId`. -/
structure DBState where
  dbOpen : Bool
  walks : List WalkRow
  route_points : List RoutePointRow
  nextWalkId : ℕ
  nextRoutePointId : ℕ

/-- A fresh service: `this.db = null`, empty tables. -/
def dbStart : DBState := ⟨false, [], [], 1, 1⟩

namespace DatabaseService

/-- `init()`: opens the database and creates the tables; on failure the
handle stays null (the error is caught and logged). -/
def init (db : DBState) (openOk : Bool) : DBState :=
  if openOk then { db with dbOpen := true } else db

/-- JavaScript `v || null` applied to a possibly-absent number: `undefined`
and the falsy number `0` both become `null`. -/
noncomputable def jsOrNull (v : Option ℝ) : Option ℝ :=
  match v with
  | some x => if x = 0 then none else some x
  | none => none

/-- `saveWalk`: one row insert; returns `lastInsertRowId` on success and
`null` when the handle is null or the insert fails (the error is caught). -/
noncomputable def saveWalk (db : DBState) (walk : WalkRec) (insertFails : Bool) :
    DBState × Option ℕ :=
  if !db.dbOpen then (db, none)
  else if insertFails then (db, none)
  else
    let row : WalkRow :=
      { id := db.nextWalkId
        startTime := walk.startTime
        endTime := walk.endTime
        duration := walk.duration
        startLatitude := walk.startLatitude
        startLongitude := walk.startLongitude
        endLatitude := jsOrNull walk.endLatitude
        endLongitude := jsOrNull walk.endLongitude
        distance := jsOrNull walk.distance
        createdAt := walk.createdAt }
    ({ db with walks := db.walks ++ [row], nextWalkId := db.nextWalkId + 1 },
      some db.nextWalkId)

/-- The row written for one element of a `saveRoutePoints` batch
(`point.accuracy || null` is applied on insert). -/
noncomputable def toRoutePointRow (pid : ℕ) (p : RoutePointRec) : RoutePointRow :=
  { id := pid
    walkId := p.walkId
    latitude := p.latitude
    longitude := p.longitude
    timestamp := p.timestamp
    accuracy := jsOrNull p.accuracy }

/-- The insert loop inside the transaction: rows accumulate in the pending
transaction; the first failing insert aborts the loop (`none`). -/
noncomputable def runInserts (insertFails : RoutePointRec → Bool) (firstId : ℕ) :
    List RoutePointRec → Option (List RoutePointRow)
  | [] => some []
  | p :: rest =>
    if insertFails p then none
    else (runInserts insertFails (firstId + 1) rest).map
      (fun rows => toRoutePointRow firstId p :: rows)

/-- `saveRoutePoints`: short-circuits to `false` when the handle is null or
the batch is empty; otherwise `BEGIN`, the insert loop, and `COMMIT`, with
`ROLLBACK` discarding the pending rows on any mid-batch failure.  The third
component records whether a transaction was opened. -/
noncomputable def saveRoutePoints (db : DBState) (points : List RoutePointRec)
    (insertFails : RoutePointRec → Bool) : DBState × Bool × Bool :=
  if !db.dbOpen || points.length == 0 then (db, false, false)
  else
    match runInserts insertFails db.nextRoutePointId points with
    | some rows =>
      ({ db with route_points := db.route_points ++ rows,
                 nextRoutePointId := db.nextRoutePointId + rows.length },
        true, true)
    | none => (db, false, true)

/-- `getRoutePoints`: `SELECT * FROM route_points WHERE walkId = ? ORDER BY
timestamp ASC`; `[]` when the handle is null (or on a read error). -/
def getRoutePoints (db : DBState) (walkId : ℕ) : List RoutePointRow :=
  if !db.dbOpen then []
  else (db.route_points.filter (fun p => p.walkId == walkId)).mergeSort
    (fun a b => a.timestamp ≤ b.timestamp)

/-- `getAllWalks`: `SELECT * FROM walks ORDER BY createdAt DESC`. -/
def getAllWalks (db : DBState) : List WalkRow :=
  if !db.dbOpen then []
  else db.walks.mergeSort (fun a b => b.createdAt ≤ a.createdAt)

/-- `getRecentWalks`: same ordering, capped at `limit` (default 10). -/
def getRecentWalks (db : DBState) (limit : ℕ := 10) : List WalkRow :=
  if !db.dbOpen then []
  else (db.walks.mergeSort (fun a b => b.createdAt ≤ a.createdAt)).take limit

/-- `getWalkById`: first row with that id, or `null`. -/
def getWalkById (db : DBState) (id : ℕ) : Option WalkRow :=
  if !db.dbOpen then none
  else db.walks.find? (fun w => w.id == id)

/-- The stats row as the caller receives it.  SQL `SUM`/`AVG` over zero rows
produce `NULL`, so those three fields are `Option`; `COUNT(*)` is always a
number. -/
structure WalkStats where
  totalWalks : ℕ
  totalDuration : Option ℤ
  totalDistance : Option ℝ
  averageDuration : Option ℝ

/-- SQL `SUM` over an integer column: `NULL` when there are no rows. -/
def sqlSumInt (xs : List ℤ) : Option ℤ :=
  if xs.isEmpty then none else some xs.sum

/-- SQL `SUM` over a real column: `NULL` when there are no rows. -/
noncomputable def sqlSumReal (xs : List ℝ) : Option ℝ :=
  if xs.isEmpty then none else some xs.sum

/-- SQL `AVG` over an integer column: `NULL` when there are no rows. -/
noncomputable def sqlAvgInt (xs : List ℤ) : Option ℝ :=
  if xs.isEmpty then none else some ((xs.sum : ℝ) / xs.length)

/-- `getWalkStats`: the aggregate query `SELECT COUNT(*), SUM(duration),
SUM(COALESCE(distance, 0)), AVG(duration) FROM walks`.  The query always
yields exactly one row, so the `stats || {0,0,0,0}` fallback only matters
for the literal-zeros branches (null handle, caught read error). -/
noncomputable def getWalkStats (db : DBState) : WalkStats :=
  if !db.dbOpen then ⟨0, some 0, some 0, some 0⟩
  else
    { totalWalks := db.walks.length
      totalDuration := sqlSumInt (db.walks.map (fun w => w.duration))
      totalDistance := sqlSumReal (db.walks.map (fun w => w.distance.getD 0))
      averageDuration := sqlAvgInt (db.walks.map (fun w => w.duration)) }

/-- `deleteWalk`: deletes matching `route_points` rows first, then the
matching `walks` row; returns `true` (storage errors are not modelled for
the two single-row deletes, which cannot violate the claims checked here). -/
def deleteWalk (db : DBState) (id : ℕ) : DBState × Bool :=
  if !db.dbOpen then (db, false)
  else
    let db1 := { db with route_points := db.route_points.filter (fun p => !(p.walkId == id)) }
    let db2 := { db1 with walks := db1.walks.filter (fun w => !(w.id == id)) }
    (db2, true)

end DatabaseService

/-! ## Walk-session state machine (`WalkProvider` in the walk context)

Location fixes and storage outcomes are inputs of each step: a fix is an
`Option Coord` (`getCurrentLocation` catches its own errors and returns
`null`), `subOk` tells whether `watchPositionAsync` succeeded, and the
persistence oracles of `stopWalk` select the outcome of each database call.
Timestamps are integer epoch milliseconds. -/

/-- The provider's state hooks: `isWalking`, `walkStartTime`,
`startLocation`, `currentLocation`, `routePoints`, `locationSubscription`
(modelled as "a live subscription exists"). -/
structure Session where
  isWalking : Bool
  walkStartTime : Option ℤ
  startLocation : Option Coord
  currentLocation : Option Coord
  routePoints : List Coord
  locationSubscription : Bool

/-- The provider's state on mount. -/
def mkSession : Session := ⟨false, none, none, none, [], false⟩

/-- `startWalk`: a failed fix returns early with no state change; a
successful fix transitions to Active, seeds `routePoints` with the fix, and
starts continuous tracking (`subOk` is whether `watchPositionAsync`
succeeded — its failure is caught and only logged). -/
def startWalk (s : Session) (fix : Option Coord) (now : ℤ) (subOk : Bool) : Session :=
  match fix with
  | none => s
  | some loc =>
    { isWalking := true
      walkStartTime := some now
      startLocation := some loc
      currentLocation := some loc
      routePoints := [loc]
      locationSubscription := subOk }

/-- The `watchPositionAsync` callback: delivered only while a subscription
is live; updates `currentLocation` and appends to `routePoints`. -/
def locationUpdate (s : Session) (p : Coord) : Session :=
  if s.locationSubscription then
    { s with currentLocation := some p, routePoints := s.routePoints ++ [p] }
  else s

/-- The provider-unmount cleanup: removes a live subscription. -/
def unmountCleanup (s : Session) : Session :=
  { s with locationSubscription := false }

/-- The per-point records built by `stopWalk` for `saveRoutePoints`:
timestamps are synthesized as `walkStartTime + index · 5000` ms and
`accuracy` is `undefined`. -/
def mkRoutePointsData (walkId : ℕ) (walkStartTime : ℤ) (routePoints : List Coord) :
    List RoutePointRec :=
  routePoints.enum.map fun ip =>
    { walkId := walkId
      latitude := ip.2.latitude
      longitude := ip.2.longitude
      timestamp := walkStartTime + (ip.1 : ℤ) * 5000
      accuracy := none }

/-- `stopWalk`: early return when `walkStartTime` or `startLocation` is
missing; otherwise stop tracking, take a best-effort end fix, build the walk
record, save it and (when the walk insert succeeded) the route points, and
reset the state — the `catch` branch (`persistThrows`) also stops tracking
and resets. -/
noncomputable def stopWalk (s : Session) (db : DBState) (endFix : Option Coord)
    (tEnd : ℤ) (walkInsertFails : Bool) (rpInsertFails : RoutePointRec → Bool)
    (persistThrows : Bool) : Session × DBState :=
  match s.walkStartTime, s.startLocation with
  | some t0, some startLoc =>
    if persistThrows then
      ({ s with isWalking := false, walkStartTime := none, startLocation := none,
                routePoints := [], locationSubscription := false }, db)
    else
      let duration := (tEnd - t0) / 1000
      let totalDistance := calculateRouteDistance s.routePoints
      let walkData : WalkRec :=
        { startTime := t0
          endTime := tEnd
          duration := duration
          startLatitude := startLoc.latitude
          startLongitude := startLoc.longitude
          endLatitude := endFix.map (fun e => e.latitude)
          endLongitude := endFix.map (fun e => e.longitude)
          distance := some totalDistance
          createdAt := tEnd }
      let res := DatabaseService.saveWalk db walkData walkInsertFails
      let db2 :=
        match res.2 with
        | some walkId =>
          (DatabaseService.saveRoutePoints res.1
            (mkRoutePointsData walkId t0 s.routePoints) rpInsertFails).1
        | none => res.1
      ({ s with isWalking := false, walkStartTime := none, startLocation := none,
                routePoints := [], locationSubscription := false }, db2)
  | _, _ => (s, db)

/-- The session states reachable from mount through the provider's
operations, under every environment outcome. -/
inductive Reachable : Session → Prop where
  | mount : Reachable mkSession
  | start : ∀ {s} (fix : Option Coord) (now : ℤ) (subOk : Bool),
      Reachable s → Reachable (startWalk s fix now subOk)
  | update : ∀ {s} (p : Coord), Reachable s → Reachable (locationUpdate s p)
  | stop : ∀ {s} (db : DBState) (endFix : Option Coord) (tEnd : ℤ)
      (walkInsertFails : Bool) (rpInsertFails : RoutePointRec → Bool)
      (persistThrows : Bool), Reachable s →
      Reachable (stopWalk s db endFix tEnd walkInsertFails rpInsertFails persistThrows).1
  | cleanup : ∀ {s}, Reachable s → Reachable (unmountCleanup s)

/-- The session invariant: Active states have a non-empty route, a start
time and a start location; start time and start location are set together;
a live subscription only exists while Active; Idle states have an empty
route. -/
def SessionInv (s : Session) : Prop :=
  (s.isWalking = true →
    s.routePoints ≠ [] ∧ s.walkStartTime ≠ none ∧ s.startLocation ≠ none) ∧
  (s.walkStartTime.isSome ↔ s.startLocation.isSome) ∧
  (s.locationSubscription = true → s.isWalking = true) ∧
  (s.isWalking = false → s.routePoints = [])

/-- The rows a fully successful `saveRoutePoints` batch writes: one
converted row per input record, with consecutive ids from `firstId`. -/
noncomputable def expectedRows (firstId : ℕ) : List RoutePointRec → List RoutePointRow
  | [] => []
  | p :: rest => DatabaseService.toRoutePointRow firstId p :: expectedRows (firstId + 1) rest

/-! ## Theorems -/

theorem calculateDistance_eq (p q : Coord) :
    calculateDistance p q =
      6371e3 * (2 * atan2 (Real.sqrt (havA p q)) (Real.sqrt (1 - havA p q))) := rfl

theorem pairSum_nil (d : Coord → Coord → ℝ) : pairSum d [] = 0 := rfl

theorem pairSum_single (d : Coord → Coord → ℝ) (p : Coord) : pairSum d [p] = 0 := rfl

theorem pairSum_cons_cons (d : Coord → Coord → ℝ) (p q : Coord) (rest : List Coord) :
    pairSum d (p :: q :: rest) = d p q + pairSum d (q :: rest) := rfl

theorem foldl_add_eq (d : Coord → Coord → ℝ) (l : List (Coord × Coord)) (a : ℝ) :
    l.foldl (fun total pq => total + d pq.1 pq.2) a =
      a + (l.map fun pq => d pq.1 pq.2).sum := by
  induction l generalizing a with
  | nil => simp
  | cons x xs ih => simp [ih]; ring

theorem zip_tail_sum_eq_pairSum (d : Coord → Coord → ℝ) (ps : List Coord) :
    ((ps.zip ps.tail).map fun pq => d pq.1 pq.2).sum = pairSum d ps := by
  induction ps with
  | nil => simp [pairSum_nil]
  | cons p rest ih =>
    cases rest with
    | nil => simp [pairSum_single]
    | cons q rest' =>
      rw [pairSum_cons_cons]
      simpa using congrArg (fun x => d p q + x) ih

theorem calculateRouteDistance_eq_pairSum (ps : List Coord) :
    calculateRouteDistance ps = pairSum calculateDistance ps := by
  unfold calculateRouteDistance
  by_cases h : ps.length < 2
  · rw [if_pos h]
    match ps, h with
    | [], _ => rw [pairSum_nil]
    | [p], _ => rw [pairSum_single]
  · rw [if_neg h, foldl_add_eq, zip_tail_sum_eq_pairSum, zero_add]

theorem specSegment_eq (p q : Coord) :
    specSegment p q =
      6371000 * (2 * atan2
        (Real.sqrt (Real.sin ((q.latitude * Real.pi / 180 - p.latitude * Real.pi / 180) / 2) ^ 2 +
          Real.cos (p.latitude * Real.pi / 180) * Real.cos (q.latitude * Real.pi / 180) *
            Real.sin ((q.longitude * Real.pi / 180 - p.longitude * Real.pi / 180) / 2) ^ 2))
        (Real.sqrt (1 -
          (Real.sin ((q.latitude * Real.pi / 180 - p.latitude * Real.pi / 180) / 2) ^ 2 +
          Real.cos (p.latitude * Real.pi / 180) * Real.cos (q.latitude * Real.pi / 180) *
            Real.sin ((q.longitude * Real.pi / 180 - p.longitude * Real.pi / 180) / 2) ^ 2)))) :=
  rfl

theorem specSegment_eq_calculateDistance (p q : Coord) :
    specSegment p q = calculateDistance p q := by
  have h1 : (q.latitude * Real.pi / 180 - p.latitude * Real.pi / 180) / 2 =
      (q.latitude - p.latitude) * Real.pi / 180 / 2 := by ring
  have h2 : (q.longitude * Real.pi / 180 - p.longitude * Real.pi / 180) / 2 =
      (q.longitude - p.longitude) * Real.pi / 180 / 2 := by ring
  have ha : Real.sin ((q.latitude * Real.pi / 180 - p.latitude * Real.pi / 180) / 2) ^ 2 +
      Real.cos (p.latitude * Real.pi / 180) * Real.cos (q.latitude * Real.pi / 180) *
        Real.sin ((q.longitude * Real.pi / 180 - p.longitude * Real.pi / 180) / 2) ^ 2 =
      havA p q := by
    rw [h1, h2]; unfold havA; ring
  rw [specSegment_eq, calculateDistance_eq, ha]
  norm_num

theorem pairSum_spec_eq_sum (ps : List Coord) :
    pairSum specSegment ps =
      ∑ i ∈ Finset.range (ps.length - 1),
        specSegment (ps.getD i default) (ps.getD (i + 1) default) := by
  induction ps with
  | nil => simp [pairSum_nil]
  | cons p rest ih =>
    cases rest with
    | nil => simp [pairSum_single]
    | cons q rest' =>
      rw [pairSum_cons_cons, ih]
      have hlen : (p :: q :: rest').length - 1 = ((q :: rest').length - 1) + 1 := by
        simp
      rw [hlen, Finset.sum_range_succ']
      simp only [List.getD_cons_succ, List.getD_cons_zero]
      exact add_comm _ _

theorem pairSum_congr (d e : Coord → Coord → ℝ) (h : ∀ p q, d p q = e p q)
    (ps : List Coord) : pairSum d ps = pairSum e ps := by
  induction ps with
  | nil => rfl
  | cons p rest ih =>
    cases rest with
    | nil => rfl
    | cons q rest' =>
      rw [pairSum_cons_cons, pairSum_cons_cons, h p q, ih]

theorem calculateDistance_symm (p q : Coord) :
    calculateDistance p q = calculateDistance q p := by
  rw [calculateDistance_eq, calculateDistance_eq]
  have ha : havA p q = havA q p := by
    unfold havA
    have h1 : (q.latitude - p.latitude) * Real.pi / 180 / 2 =
        -((p.latitude - q.latitude) * Real.pi / 180 / 2) := by ring
    have h2 : (q.longitude - p.longitude) * Real.pi / 180 / 2 =
        -((p.longitude - q.longitude) * Real.pi / 180 / 2) := by ring
    rw [h1, h2, Real.sin_neg, Real.sin_neg]
    ring
  rw [ha]

theorem atan2_nonneg (y x : ℝ) (hy : 0 ≤ y) : 0 ≤ atan2 y x :=
  Complex.arg_nonneg_iff.mpr hy

theorem calculateDistance_nonneg (p q : Coord) : 0 ≤ calculateDistance p q := by
  rw [calculateDistance_eq]
  have h := atan2_nonneg (Real.sqrt (havA p q)) (Real.sqrt (1 - havA p q))
    (Real.sqrt_nonneg _)
  have h2 : (0 : ℝ) ≤ 2 * atan2 (Real.sqrt (havA p q)) (Real.sqrt (1 - havA p q)) := by
    linarith
  have hR : (0 : ℝ) ≤ 6371e3 := by norm_num
  exact mul_nonneg hR h2

theorem calculateDistance_self (p : Coord) : calculateDistance p p = 0 := by
  rw [calculateDistance_eq]
  have ha : havA p p = 0 := by
    unfold havA
    simp
  have hz : atan2 0 1 = 0 := by
    unfold atan2
    have h1 : (⟨1, 0⟩ : ℂ) = 1 := rfl
    rw [h1, Complex.arg_one]
  rw [ha, Real.sqrt_zero, sub_zero, Real.sqrt_one, hz, mul_zero, mul_zero]

theorem pairSum_nonneg (d : Coord → Coord → ℝ) (hd : ∀ p q, 0 ≤ d p q)
    (ps : List Coord) : 0 ≤ pairSum d ps := by
  induction ps with
  | nil => exact le_refl 0
  | cons p tl ih =>
    cases tl with
    | nil => exact le_refl 0
    | cons q rest =>
      rw [pairSum_cons_cons]
      exact add_nonneg (hd p q) ih

theorem pairSum_cons_replicate (d : Coord → Coord → ℝ) (p : Coord) (hd : d p p = 0)
    (n : ℕ) : pairSum d (p :: List.replicate n p) = 0 := by
  induction n with
  | zero => rfl
  | succ m ih =>
    rw [List.replicate_succ, pairSum_cons_cons, hd, zero_add, ih]

theorem pairSum_replicate (d : Coord → Coord → ℝ) (p : Coord) (hd : d p p = 0)
    (n : ℕ) : pairSum d (List.replicate n p) = 0 := by
  cases n with
  | zero => rfl
  | succ m =>
    rw [List.replicate_succ]
    exact pairSum_cons_replicate d p hd m

theorem pairSum_append_single (d : Coord → Coord → ℝ) (l : List Coord) (x : Coord) :
    pairSum d (l ++ [x]) = pairSum d l + lastSeg d l x := by
  induction l with
  | nil => simp [pairSum_nil, pairSum_single, lastSeg]
  | cons p tl ih =>
    cases tl with
    | nil =>
      show pairSum d [p, x] = pairSum d [p] + lastSeg d [p] x
      rw [pairSum_cons_cons, pairSum_single, pairSum_single]
      simp [lastSeg]
    | cons q rest =>
      have hl : (p :: q :: rest) ++ [x] = p :: q :: (rest ++ [x]) := rfl
      rw [hl, pairSum_cons_cons]
      have hl2 : (q :: rest) ++ [x] = q :: (rest ++ [x]) := rfl
      rw [← hl2, ih, pairSum_cons_cons]
      have hlast : lastSeg d (p :: q :: rest) x = lastSeg d (q :: rest) x := by
        unfold lastSeg
        rw [List.getLast?_cons_cons]
      rw [hlast]
      ring

theorem pairSum_reverse (d : Coord → Coord → ℝ) (hd : ∀ p q, d p q = d q p)
    (ps : List Coord) : pairSum d ps.reverse = pairSum d ps := by
  induction ps with
  | nil => rfl
  | cons p tl ih =>
    rw [List.reverse_cons, pairSum_append_single, ih]
    cases tl with
    | nil => simp [pairSum_nil, pairSum_single, lastSeg]
    | cons q rest =>
      rw [pairSum_cons_cons]
      have hlast : lastSeg d (q :: rest).reverse p = d q p := by
        unfold lastSeg
        rw [List.getLast?_reverse]
        rfl
      rw [hlast, hd q p]
      ring

/-- C1: for every sequence of coordinates, `calculateRouteDistance` equals the
sum over all consecutive pairs of the Haversine great-circle distance with
Earth radius 6,371,000 m (the spec's formula, `specRouteLength`), and for
every sequence of fewer than 2 points the result is exactly 0. -/
theorem claim_routeLength_is_haversine_sum (ps : List Coord) :
    calculateRouteDistance ps = specRouteLength ps ∧
      (ps.length < 2 → calculateRouteDistance ps = 0) := by
  constructor
  · rw [calculateRouteDistance_eq_pairSum]
    unfold specRouteLength
    rw [← pairSum_spec_eq_sum]
    exact pairSum_congr _ _ (fun p q => (specSegment_eq_calculateDistance p q).symm) ps
  · intro h
    unfold calculateRouteDistance
    rw [if_pos h]

theorem claim_routeLength_is_haversine_sum_witness :
    calculateRouteDistance [(⟨0, 0⟩ : Coord)] = 0 :=
  (claim_routeLength_is_haversine_sum [⟨0, 0⟩]).2 (by decide)

/-- C8: for every sequence of ≥ 2 coordinates, `calculateRouteDistance` is
non-negative, equals the route distance of the fully reversed sequence, and is
zero for a sequence consisting of one identical point repeated. -/
theorem claim_routeLength_algebraic (ps : List Coord) (h : 2 ≤ ps.length) :
    0 ≤ calculateRouteDistance ps ∧
      calculateRouteDistance ps.reverse = calculateRouteDistance ps ∧
      ∀ (p : Coord) (n : ℕ), ps = List.replicate n p → calculateRouteDistance ps = 0 := by
  refine ⟨?_, ?_, ?_⟩
  · rw [calculateRouteDistance_eq_pairSum]
    exact pairSum_nonneg _ calculateDistance_nonneg ps
  · rw [calculateRouteDistance_eq_pairSum, calculateRouteDistance_eq_pairSum]
    exact pairSum_reverse _ calculateDistance_symm ps
  · intro p n hrep
    rw [hrep, calculateRouteDistance_eq_pairSum]
    exact pairSum_replicate _ _ (calculateDistance_self p) n

theorem claim_routeLength_algebraic_witness :
    calculateRouteDistance [(⟨0, 0⟩ : Coord), ⟨0, 0⟩] = 0 :=
  (claim_routeLength_algebraic [⟨0, 0⟩, ⟨0, 0⟩] (by decide)).2.2 ⟨0, 0⟩ 2 rfl

theorem reachable_sessionInv {s : Session} (h : Reachable s) : SessionInv s := by
  induction h with
  | mount => simp [SessionInv, mkSession]
  | start fix now subOk hr ih =>
    cases fix with
    | none => exact ih
    | some loc =>
      unfold SessionInv startWalk
      refine ⟨fun _ => ⟨by simp, by simp, by simp⟩, by simp, fun _ => rfl, fun hF => ?_⟩
      simp at hF
  | update p hr ih =>
    rename_i s'
    unfold locationUpdate
    by_cases hsub : s'.locationSubscription = true
    · rw [if_pos hsub]
      obtain ⟨h1, h2, h3, h4⟩ := ih
      have hw : s'.isWalking = true := h3 hsub
      refine ⟨fun _ => ⟨by simp, (h1 hw).2.1, (h1 hw).2.2⟩, h2, fun _ => hw, fun hF => ?_⟩
      rw [hw] at hF
      exact absurd hF (by simp)
    · rw [if_neg (by simpa using hsub)]
      exact ih
  | stop db endFix tEnd wf rf th hr ih =>
    rename_i s'
    cases hws : s'.walkStartTime with
    | none =>
      obtain ⟨h1, h2, h3, h4⟩ := ih
      have : (stopWalk s' db endFix tEnd wf rf th).1 = s' := by
        unfold stopWalk
        rw [hws]
      rw [this]
      exact ⟨h1, h2, h3, h4⟩
    | some t0 =>
      cases hsl : s'.startLocation with
      | none =>
        obtain ⟨h1, h2, h3, h4⟩ := ih
        have : (stopWalk s' db endFix tEnd wf rf th).1 = s' := by
          unfold stopWalk
          rw [hws, hsl]
        rw [this]
        exact ⟨h1, h2, h3, h4⟩
      | some loc =>
        have : (stopWalk s' db endFix tEnd wf rf th).1 =
            { s' with isWalking := false, walkStartTime := none, startLocation := none,
                      routePoints := [], locationSubscription := false } := by
          unfold stopWalk
          rw [hws, hsl]
          cases th <;> rfl
        rw [this]
        simp [SessionInv]
  | cleanup hr ih =>
    obtain ⟨h1, h2, h3, h4⟩ := ih
    exact ⟨h1, h2, fun hF => by simp [unmountCleanup] at hF, h4⟩

/-- C2: for every reachable Active session and every persistence outcome
(walk insert fails, route-point insert fails, or the persistence call
throws), after `stopWalk` the session is reset to Idle: `isWalking = false`,
`walkStartTime = none`, `startLocation = none`, `routePoints = []`. -/
theorem claim_stop_always_resets (s : Session) (h : Reachable s)
    (ha : s.isWalking = true) (db : DBState) (endFix : Option Coord) (tEnd : ℤ)
    (walkInsertFails : Bool) (rpInsertFails : RoutePointRec → Bool)
    (persistThrows : Bool) :
    (stopWalk s db endFix tEnd walkInsertFails rpInsertFails persistThrows).1.isWalking
        = false ∧
    (stopWalk s db endFix tEnd walkInsertFails rpInsertFails persistThrows).1.walkStartTime
        = none ∧
    (stopWalk s db endFix tEnd walkInsertFails rpInsertFails persistThrows).1.startLocation
        = none ∧
    (stopWalk s db endFix tEnd walkInsertFails rpInsertFails persistThrows).1.routePoints
        = [] := by
  obtain ⟨h1, -, -, -⟩ := reachable_sessionInv h
  obtain ⟨-, hwt, hsl⟩ := h1 ha
  cases hws : s.walkStartTime with
  | none => exact absurd hws hwt
  | some t0 =>
    cases hsl2 : s.startLocation with
    | none => exact absurd hsl2 hsl
    | some loc =>
      have he : (stopWalk s db endFix tEnd walkInsertFails rpInsertFails persistThrows).1 =
          { s with isWalking := false, walkStartTime := none, startLocation := none,
                   routePoints := [], locationSubscription := false } := by
        unfold stopWalk
        rw [hws, hsl2]
        cases persistThrows <;> rfl
      rw [he]
      exact ⟨rfl, rfl, rfl, rfl⟩

theorem claim_stop_always_resets_witness :
    (stopWalk (startWalk mkSession (some ⟨0, 0⟩) 0 true) dbStart none 0 false
        (fun _ => false) false).1.isWalking = false ∧
    (stopWalk (startWalk mkSession (some ⟨0, 0⟩) 0 true) dbStart none 0 false
        (fun _ => false) false).1.walkStartTime = none ∧
    (stopWalk (startWalk mkSession (some ⟨0, 0⟩) 0 true) dbStart none 0 false
        (fun _ => false) false).1.startLocation = none ∧
    (stopWalk (startWalk mkSession (some ⟨0, 0⟩) 0 true) dbStart none 0 false
        (fun _ => false) false).1.routePoints = [] :=
  claim_stop_always_resets (startWalk mkSession (some ⟨0, 0⟩) 0 true)
    (Reachable.start (some ⟨0, 0⟩) 0 true Reachable.mount) rfl dbStart none 0 false
    (fun _ => false) false

/-- C6: for every reachable Idle session, a `startWalk` whose
current-location fix fails leaves the state completely unchanged — still
Idle, `routePoints` empty, no live subscription. -/
theorem claim_start_fix_failure_no_transition (s : Session) (h : Reachable s)
    (hidle : s.isWalking = false) (now : ℤ) (subOk : Bool) :
    startWalk s none now subOk = s ∧ s.routePoints = [] ∧
      s.locationSubscription = false := by
  obtain ⟨-, -, h3, h4⟩ := reachable_sessionInv h
  refine ⟨rfl, h4 hidle, ?_⟩
  cases hb : s.locationSubscription with
  | false => rfl
  | true =>
    have hcontr := h3 hb
    rw [hidle] at hcontr
    exact Bool.noConfusion hcontr

theorem claim_start_fix_failure_no_transition_witness :
    startWalk mkSession none 0 true = mkSession ∧ mkSession.routePoints = [] ∧
      mkSession.locationSubscription = false :=
  claim_start_fix_failure_no_transition mkSession Reachable.mount rfl 0 true

/-- C7: every reachable session state satisfies the invariant (preserved by
every operation, failure paths included): `routePoints` is non-empty
whenever the session is Active, and `walkStartTime` and `startLocation` are
set or unset together. -/
theorem claim_session_invariant (s : Session) (h : Reachable s) :
    (s.isWalking = true → s.routePoints ≠ []) ∧
      (s.walkStartTime.isSome ↔ s.startLocation.isSome) := by
  obtain ⟨h1, h2, -, -⟩ := reachable_sessionInv h
  exact ⟨fun hw => (h1 hw).1, h2⟩

theorem claim_session_invariant_witness :
    (mkSession.isWalking = true → mkSession.routePoints ≠ []) ∧
      (mkSession.walkStartTime.isSome ↔ mkSession.startLocation.isSome) :=
  claim_session_invariant mkSession Reachable.mount

theorem expectedRows_length (firstId : ℕ) (ps : List RoutePointRec) :
    (expectedRows firstId ps).length = ps.length := by
  induction ps generalizing firstId with
  | nil => rfl
  | cons p rest ih => simp [expectedRows, ih]

theorem runInserts_of_no_failure (fails : RoutePointRec → Bool) (ps : List RoutePointRec)
    (h : ∀ p ∈ ps, fails p = false) (firstId : ℕ) :
    DatabaseService.runInserts fails firstId ps = some (expectedRows firstId ps) := by
  induction ps generalizing firstId with
  | nil => rfl
  | cons p rest ih =>
    unfold DatabaseService.runInserts
    rw [if_neg (by simp [h p (by simp)])]
    rw [ih (fun q hq => h q (by simp [hq])) (firstId + 1)]
    rfl

theorem runInserts_of_failure (fails : RoutePointRec → Bool) (ps : List RoutePointRec)
    (h : ∃ p ∈ ps, fails p = true) (firstId : ℕ) :
    DatabaseService.runInserts fails firstId ps = none := by
  induction ps generalizing firstId with
  | nil => simp at h
  | cons p rest ih =>
    unfold DatabaseService.runInserts
    by_cases hp : fails p = true
    · rw [if_pos hp]
    · rw [if_neg hp]
      obtain ⟨q, hq, hfq⟩ := h
      rcases List.mem_cons.mp hq with hq | hq
      · exact absurd (hq ▸ hfq) hp
      · rw [ih ⟨q, hq, hfq⟩ (firstId + 1)]
        rfl

/-- C3: `saveRoutePoints` is all-or-nothing: on an initialized store, a batch
with any failing insert leaves the table untouched and returns `false` (after
rollback of the opened transaction); a batch with no failing insert appends
exactly one row per point and returns `true`; the empty batch returns
`false` without opening a transaction. -/
theorem claim_saveRoutePoints_all_or_nothing (db : DBState)
    (points : List RoutePointRec) (insertFails : RoutePointRec → Bool)
    (hopen : db.dbOpen = true) :
    ((∃ p ∈ points, insertFails p = true) →
      DatabaseService.saveRoutePoints db points insertFails = (db, false, true)) ∧
    (points ≠ [] → (∀ p ∈ points, insertFails p = false) →
      DatabaseService.saveRoutePoints db points insertFails =
        ({ db with
            route_points := db.route_points ++ expectedRows db.nextRoutePointId points,
            nextRoutePointId := db.nextRoutePointId + points.length }, true, true)) ∧
    (points = [] →
      DatabaseService.saveRoutePoints db points insertFails = (db, false, false)) := by
  refine ⟨?_, ?_, ?_⟩
  · intro hfail
    have hne : points ≠ [] := by
      rintro rfl
      obtain ⟨p, hp, -⟩ := hfail
      simp at hp
    unfold DatabaseService.saveRoutePoints
    rw [if_neg (by simp [hopen, List.length_eq_zero, hne])]
    rw [runInserts_of_failure insertFails points hfail db.nextRoutePointId]
  · intro hne hok
    unfold DatabaseService.saveRoutePoints
    rw [if_neg (by simp [hopen, List.length_eq_zero, hne])]
    rw [runInserts_of_no_failure insertFails points hok db.nextRoutePointId]
    simp [expectedRows_length]
  · rintro rfl
    unfold DatabaseService.saveRoutePoints
    rw [if_pos (by simp)]

theorem claim_saveRoutePoints_all_or_nothing_witness :
    DatabaseService.saveRoutePoints (DatabaseService.init dbStart true) []
        (fun _ => false) = (DatabaseService.init dbStart true, false, false) :=
  (claim_saveRoutePoints_all_or_nothing (DatabaseService.init dbStart true) []
    (fun _ => false) rfl).2.2 rfl

/-- C4: the claim says `getWalkStats()` on an initialized store with no walk
rows returns exactly `{0, 0, 0, 0}`; the code instead yields the aggregate
row `{COUNT = 0, SUM = NULL, SUM = NULL, AVG = NULL}` (SQL `SUM`/`AVG` over
zero rows are `NULL`, and the truthy row object bypasses the `stats || {…}`
all-zero fallback), which differs from the all-zero result. -/
theorem claim_getWalkStats_empty_is_nulls :
    DatabaseService.getWalkStats (DatabaseService.init dbStart true) =
      ⟨0, none, none, none⟩ ∧
    (⟨0, none, none, none⟩ : DatabaseService.WalkStats) ≠
      ⟨0, some 0, some 0, some 0⟩ := by
  constructor
  · unfold DatabaseService.getWalkStats
    rw [if_neg (by simp [DatabaseService.init, dbStart])]
    simp [DatabaseService.init, dbStart, DatabaseService.sqlSumInt,
      DatabaseService.sqlSumReal, DatabaseService.sqlAvgInt]
  · intro hcontr
    have := congrArg DatabaseService.WalkStats.totalDuration hcontr
    simp at this

/-- C9: on an initialized store, `deleteWalk id` removes exactly the walk
row with that id and every `route_points` row with that `walkId` (leaving
all other rows of both tables unchanged) and reports success; for an id with
no matching walk row it is, given the ownership invariant that every route
point belongs to a stored walk, a no-op that reports success. -/
theorem claim_deleteWalk_cascade (db : DBState) (id : ℕ) (hopen : db.dbOpen = true) :
    ((DatabaseService.deleteWalk db id).1.walks =
        db.walks.filter (fun w => !(w.id == id)) ∧
      (DatabaseService.deleteWalk db id).1.route_points =
        db.route_points.filter (fun p => !(p.walkId == id)) ∧
      (DatabaseService.deleteWalk db id).2 = true) ∧
    ((∀ w ∈ db.walks, w.id ≠ id) →
      (∀ p ∈ db.route_points, ∃ w ∈ db.walks, w.id = p.walkId) →
      (DatabaseService.deleteWalk db id).1 = db ∧
        (DatabaseService.deleteWalk db id).2 = true) := by
  constructor
  · unfold DatabaseService.deleteWalk
    rw [if_neg (by simp [hopen])]
    exact ⟨rfl, rfl, rfl⟩
  · intro hnone hown
    have hw : db.walks.filter (fun w => !(w.id == id)) = db.walks := by
      apply List.filter_eq_self.mpr
      intro w hwin
      simp [hnone w hwin]
    have hp : db.route_points.filter (fun p => !(p.walkId == id)) = db.route_points := by
      apply List.filter_eq_self.mpr
      intro p hpin
      obtain ⟨w, hwin, hwid⟩ := hown p hpin
      have hneq : p.walkId ≠ id := by
        rw [← hwid]
        exact hnone w hwin
      simp [hneq]
    unfold DatabaseService.deleteWalk
    rw [if_neg (by simp [hopen])]
    refine ⟨?_, rfl⟩
    show { db with walks := _, route_points := _ } = db
    rw [hw, hp]

theorem claim_deleteWalk_cascade_witness :
    (DatabaseService.deleteWalk (DatabaseService.init dbStart true) 1).1 =
        DatabaseService.init dbStart true ∧
      (DatabaseService.deleteWalk (DatabaseService.init dbStart true) 1).2 = true :=
  (claim_deleteWalk_cascade (DatabaseService.init dbStart true) 1 rfl).2
    (by intro w hw; simp [DatabaseService.init, dbStart] at hw)
    (by intro p hp; simp [DatabaseService.init, dbStart] at hp)

/-- C10: the persistence layer coerces optional fields whose value is
exactly 0 to `NULL` (`v || null` substitutes `null` for every falsy value):
a saved walk whose `distance` (or `endLatitude`, `endLongitude`) is 0 stores
`NULL` in that column, and a route point whose `accuracy` is 0 is inserted
with `NULL` accuracy. -/
theorem claim_zero_coerced_to_null (db : DBState) (hopen : db.dbOpen = true)
    (w : WalkRec) (p : RoutePointRec) (i : ℕ) :
    (∃ row : WalkRow,
      (DatabaseService.saveWalk db w false).1.walks = db.walks ++ [row] ∧
      (w.distance = some 0 → row.distance = none) ∧
      (w.endLatitude = some 0 → row.endLatitude = none) ∧
      (w.endLongitude = some 0 → row.endLongitude = none)) ∧
    (p.accuracy = some 0 → (DatabaseService.toRoutePointRow i p).accuracy = none) := by
  constructor
  · refine ⟨⟨db.nextWalkId, w.startTime, w.endTime, w.duration, w.startLatitude,
      w.startLongitude, DatabaseService.jsOrNull w.endLatitude,
      DatabaseService.jsOrNull w.endLongitude, DatabaseService.jsOrNull w.distance,
      w.createdAt⟩, ?_, ?_, ?_, ?_⟩
    · unfold DatabaseService.saveWalk
      rw [if_neg (by simp [hopen]), if_neg (by simp)]
    · intro h
      show DatabaseService.jsOrNull w.distance = none
      rw [h]
      simp [DatabaseService.jsOrNull]
    · intro h
      show DatabaseService.jsOrNull w.endLatitude = none
      rw [h]
      simp [DatabaseService.jsOrNull]
    · intro h
      show DatabaseService.jsOrNull w.endLongitude = none
      rw [h]
      simp [DatabaseService.jsOrNull]
  · intro h
    show DatabaseService.jsOrNull p.accuracy = none
    rw [h]
    simp [DatabaseService.jsOrNull]

theorem claim_zero_coerced_to_null_witness :
    (DatabaseService.toRoutePointRow 1
      (⟨1, 0, 0, 0, some 0⟩ : RoutePointRec)).accuracy = none :=
  (claim_zero_coerced_to_null (DatabaseService.init dbStart true) rfl
    ⟨0, 0, 0, 0, 0, none, none, some 0, 0⟩ ⟨1, 0, 0, 0, some 0⟩ 1).2 rfl

/-- C5 counterexample: the claim says every store operation invoked before
`init()` completes fails with a `NotInitialized` condition the caller can
distinguish from a successful result, in particular from "no data found";
but `getRoutePoints` on the never-initialized store returns `[]`, the very
same value a successful query on an initialized store with no matching rows
returns — the caller cannot distinguish the two. -/
theorem claim_notInitialized_counterexample :
    DatabaseService.getRoutePoints dbStart 1 =
        DatabaseService.getRoutePoints (DatabaseService.init dbStart true) 1 ∧
      DatabaseService.getRoutePoints dbStart 1 = [] := by
  constructor
  · show ([] : List RoutePointRow) = _
    unfold DatabaseService.getRoutePoints
    rw [if_neg (by simp [DatabaseService.init, dbStart])]
    simp [DatabaseService.init, dbStart, List.mergeSort_nil]
  · rfl

/-- C5 amended: every store operation invoked before `init()` has completed
returns its caught-error default and leaves the store untouched — `saveWalk`
→ `null`, `saveRoutePoints` → `false`, `getRoutePoints`/`getAllWalks`/
`getRecentWalks` → `[]`, `getWalkById` → `null`, `getWalkStats` → the
all-zero object, `deleteWalk` → `false`.  The mutating operations' defaults
are distinguishable from any success, but the query operations' defaults
coincide with legitimate empty results, so they are not a distinguishable
`NotInitialized` condition. -/
theorem claim_notInitialized_defaults (db : DBState) (h : db.dbOpen = false)
    (w : WalkRec) (wf : Bool) (pts : List RoutePointRec)
    (fails : RoutePointRec → Bool) (i lim : ℕ) :
    DatabaseService.saveWalk db w wf = (db, none) ∧
    DatabaseService.saveRoutePoints db pts fails = (db, false, false) ∧
    DatabaseService.getRoutePoints db i = [] ∧
    DatabaseService.getAllWalks db = [] ∧
    DatabaseService.getRecentWalks db lim = [] ∧
    DatabaseService.getWalkById db i = none ∧
    DatabaseService.getWalkStats db = ⟨0, some 0, some 0, some 0⟩ ∧
    DatabaseService.deleteWalk db i = (db, false) := by
  refine ⟨?_, ?_, ?_, ?_, ?_, ?_, ?_, ?_⟩
  · unfold DatabaseService.saveWalk
    rw [if_pos (by simp [h])]
  · unfold DatabaseService.saveRoutePoints
    rw [if_pos (by simp [h])]
  · unfold DatabaseService.getRoutePoints
    rw [if_pos (by simp [h])]
  · unfold DatabaseService.getAllWalks
    rw [if_pos (by simp [h])]
  · unfold DatabaseService.getRecentWalks
    rw [if_pos (by simp [h])]
  · unfold DatabaseService.getWalkById
    rw [if_pos (by simp [h])]
  · unfold DatabaseService.getWalkStats
    rw [if_pos (by simp [h])]
  · unfold DatabaseService.deleteWalk
    rw [if_pos (by simp [h])]

theorem claim_notInitialized_defaults_witness :
    DatabaseService.saveWalk dbStart ⟨0, 0, 0, 0, 0, none, none, none, 0⟩ false =
        (dbStart, none) ∧
    DatabaseService.saveRoutePoints dbStart [] (fun _ => false) =
        (dbStart, false, false) ∧
    DatabaseService.getRoutePoints dbStart 1 = [] ∧
    DatabaseService.getAllWalks dbStart = [] ∧
    DatabaseService.getRecentWalks dbStart 10 = [] ∧
    DatabaseService.getWalkById dbStart 1 = none ∧
    DatabaseService.getWalkStats dbStart = ⟨0, some 0, some 0, some 0⟩ ∧
    DatabaseService.deleteWalk dbStart 1 = (dbStart, false) :=
  claim_notInitialized_defaults dbStart rfl ⟨0, 0, 0, 0, 0, none, none, none, 0⟩
    false [] (fun _ => false) 1 10

end DogWalk
